import Mathlib

/-
Verification development for the hotel-reservation conversation state machine
(src/state_graph.py, src/whatsapp_handler.py, src/whatsapp_bot.py, src/pms_client.py).

The Python code is shallowly embedded:
  - strings are Lean Strings; all string manipulation is done through
    executable helpers over List Char (so every definition kernel-evaluates);
  - Python None-able fields become Option; Python truthiness of a string
    (None and "" are falsy) is the function `truthy`;
  - calendar dates are parsed from their YYYY-MM-DD strings exactly as
    strptime does and compared through a rata-die day count; `today`
    (datetime.now().date()) is a day-count parameter;
  - external calls (the chat LLM, the PMS availability and booking calls)
    are oracles: each node takes the call result as an Option parameter,
    none modelling a raised exception.
-/

-- ===========================================================================
-- List Char string helpers (replacements for Python str operations)
-- ===========================================================================

/-- Boolean test that `pat` is a leading segment of `l` (Python startswith). -/
def matchesAt : List Char → List Char → Bool
  | [], _ => true
  | _ :: _, [] => false
  | p :: ps, c :: cs => p == c && matchesAt ps cs

/-- Boolean contiguous-sublist test; models the Python `in` operator on
strings (the empty needle is contained in everything). -/
def subListB (nd : List Char) : List Char → Bool
  | [] => matchesAt nd []
  | c :: cs => matchesAt nd (c :: cs) || subListB nd cs

/-- Python `needle in hay` on strings. -/
def hasSub (nd hay : String) : Bool := subListB nd.toList hay.toList

/-- Python str.lower() (ASCII, which is all the source compares). -/
def lowerS (s : String) : String := String.mk (s.toList.map Char.toLower)

/-- Python str.strip(): drop leading and trailing whitespace. -/
def trimS (s : String) : String :=
  String.mk (((s.toList.dropWhile Char.isWhitespace).reverse.dropWhile Char.isWhitespace).reverse)

/-- Numeric value of a digit list, as Python int() on a digit string. -/
def digitsVal (l : List Char) : Nat := l.foldl (fun a c => a * 10 + (c.toNat - 48)) 0

/-- Python int(s) guarded by str.isdigit(): some value exactly when the
string is nonempty and all digits. -/
def toNatL (l : List Char) : Option Nat :=
  if !l.isEmpty && l.all Char.isDigit then some (digitsVal l) else none

/-- First occurrence of `sep` in the list, split as (before, after). -/
def findSplit (sep : List Char) : List Char → Option (List Char × List Char)
  | [] => if sep.isEmpty then some ([], []) else none
  | c :: cs =>
    if matchesAt sep (c :: cs) then some ([], (c :: cs).drop sep.length)
    else
      match findSplit sep cs with
      | some (pre, post) => some (c :: pre, post)
      | none => none

/-- Fueled worker for Python str.split(sep). -/
def splitGo (sep : List Char) : Nat → List Char → List (List Char)
  | 0, l => [l]
  | fuel + 1, l =>
    match findSplit sep l with
    | some (pre, post) => pre :: splitGo sep fuel post
    | none => [l]

/-- Python s.split(sep) for a nonempty separator. -/
def splitOnS (s sep : String) : List String :=
  (splitGo sep.toList (s.toList.length + 1) s.toList).map String.mk

/-- Python s.split() (split on whitespace runs, no empty words). -/
def wordsGo : List Char → List Char → List (List Char)
  | acc, [] => if acc.isEmpty then [] else [acc.reverse]
  | acc, c :: cs =>
    if c.isWhitespace then
      if acc.isEmpty then wordsGo [] cs else acc.reverse :: wordsGo [] cs
    else wordsGo (c :: acc) cs

/-- Python s.split() on a string. -/
def wordsS (s : String) : List String := (wordsGo [] s.toList).map String.mk

/-- Python sep.join(parts). -/
def joinWith (sep : String) : List String → String
  | [] => ""
  | [x] => x
  | x :: y :: xs => x ++ sep ++ joinWith sep (y :: xs)

-- ===========================================================================
-- Dates: strptime('%Y-%m-%d') and date arithmetic (rata die day counts)
-- ===========================================================================

def isLeapYear (y : Nat) : Bool := y % 4 == 0 && (y % 100 != 0 || y % 400 == 0)

def daysInMonth (y m : Nat) : Nat :=
  if m == 2 then (if isLeapYear y then 29 else 28)
  else if m == 4 || m == 6 || m == 9 || m == 11 then 30
  else 31

/-- Parse a date string as datetime.strptime(s, '%Y-%m-%d').date() does:
three dash-separated decimal fields forming a valid calendar date in
datetime's supported year range. Returns (year, month, day). -/
def parseDate (s : String) : Option (Nat × Nat × Nat) :=
  match splitOnS s "-" with
  | [ys, ms, ds] =>
    match toNatL ys.toList, toNatL ms.toList, toNatL ds.toList with
    | some y, some m, some d =>
      if 1 ≤ y ∧ y ≤ 9999 ∧ 1 ≤ m ∧ m ≤ 12 ∧ 1 ≤ d ∧ d ≤ daysInMonth y m then
        some (y, m, d)
      else none
    | _, _, _ => none
  | _ => none

def daysBeforeYear (y : Nat) : Nat :=
  365 * (y - 1) + (y - 1) / 4 - (y - 1) / 100 + (y - 1) / 400

def daysBeforeMonth (y m : Nat) : Nat :=
  (List.range (m - 1)).foldl (fun a i => a + daysInMonth y (i + 1)) 0

/-- Day count of a (year, month, day) triple; differences of rata-die
numbers equal Python timedelta day differences, and the order of rata-die
numbers is date order. -/
def rataDie : Nat × Nat × Nat → Nat
  | (y, m, d) => daysBeforeYear y + daysBeforeMonth y m + d

/-- validate_dates from src/state_graph.py. `today` is the rata-die number
of datetime.now().date(). Returns (is_valid, error_message). -/
def validate_dates (check_in check_out : String) (today : Nat) : Bool × Option String :=
  match parseDate check_in, parseDate check_out with
  | some ci, some co =>
    if rataDie ci < today then
      (false, some "Check-in date cannot be in the past.")
    else if rataDie co ≤ rataDie ci then
      (false, some "Check-out date must be after check-in date.")
    else if rataDie co - rataDie ci > 30 then
      (false, some "Maximum stay is 30 nights. Please select a shorter period.")
    else (true, none)
  | _, _ => (false, some "Invalid date format. Please use YYYY-MM-DD format.")

-- ===========================================================================
-- Extraction utilities (regex models)
-- ===========================================================================

/-- Scanner for re.findall(r'(\d{4}-\d{2}-\d{2})', text): at each position
try the fixed-shape match, on success consume it, otherwise advance one
character (leftmost non-overlapping matches). -/
def scanDates : List Char → List String
  | c1 :: c2 :: c3 :: c4 :: '-' :: c5 :: c6 :: '-' :: c7 :: c8 :: rest =>
    if c1.isDigit && c2.isDigit && c3.isDigit && c4.isDigit &&
       c5.isDigit && c6.isDigit && c7.isDigit && c8.isDigit then
      String.mk [c1, c2, c3, c4, '-', c5, c6, '-', c7, c8] :: scanDates rest
    else scanDates (c2 :: c3 :: c4 :: '-' :: c5 :: c6 :: '-' :: c7 :: c8 :: rest)
  | _ :: rest => scanDates rest
  | [] => []

/-- DateExtractor.extract_dates from src/state_graph.py: both fields are
filled only when at least two YYYY-MM-DD tokens appear (positionally);
otherwise both stay None. Result is (check_in, check_out). -/
def extract_dates (text : String) : Option String × Option String :=
  match scanDates text.toList with
  | d1 :: d2 :: _ => (some d1, some d2)
  | _ => (none, none)

/-- Match of r'(\d+)\s*(?:guests?|people|persons?)' at the head of the list:
greedy digits, optional whitespace, then one of the count words. -/
def matchCountWord (l : List Char) : Option Nat :=
  let ds := l.takeWhile Char.isDigit
  if ds.isEmpty then none
  else
    let r := (l.dropWhile Char.isDigit).dropWhile Char.isWhitespace
    if matchesAt "guest".toList r || matchesAt "people".toList r ||
       matchesAt "person".toList r then some (digitsVal ds)
    else none

/-- Match of r'for\s*(\d+)' at the head of the list. -/
def matchForN (l : List Char) : Option Nat :=
  if matchesAt "for".toList l then
    let r := (l.drop 3).dropWhile Char.isWhitespace
    let ds := r.takeWhile Char.isDigit
    if ds.isEmpty then none else some (digitsVal ds)
  else none

/-- Match of r'party\s*of\s*(\d+)' at the head of the list. -/
def matchPartyOf (l : List Char) : Option Nat :=
  if matchesAt "party".toList l then
    let r1 := (l.drop 5).dropWhile Char.isWhitespace
    if matchesAt "of".toList r1 then
      let r2 := (r1.drop 2).dropWhile Char.isWhitespace
      let ds := r2.takeWhile Char.isDigit
      if ds.isEmpty then none else some (digitsVal ds)
    else none
  else none

/-- Match of r'(\d+)\s*(?:adults?|pax)' at the head of the list
(the extra pattern of the WhatsApp parser). -/
def matchAdults (l : List Char) : Option Nat :=
  let ds := l.takeWhile Char.isDigit
  if ds.isEmpty then none
  else
    let r := (l.dropWhile Char.isDigit).dropWhile Char.isWhitespace
    if matchesAt "adult".toList r || matchesAt "pax".toList r then some (digitsVal ds)
    else none

/-- re.search: try the head match at every position, leftmost first. -/
def searchPos (m : List Char → Option Nat) : List Char → Option Nat
  | [] => none
  | c :: cs =>
    match m (c :: cs) with
    | some v => some v
    | none => searchPos m cs

/-- DateExtractor.extract_guest_count from src/state_graph.py: the three
patterns are tried in order on text.lower(), first pattern with a match
anywhere wins. -/
def extract_guest_count (text : String) : Option Nat :=
  let low := (lowerS text).toList
  match searchPos matchCountWord low with
  | some v => some v
  | none =>
    match searchPos matchForN low with
    | some v => some v
    | none => searchPos matchPartyOf low

/-- Guest-count part of WhatsAppInputParser.extract_dates_and_guests
(same three patterns plus adults/pax). -/
def waGuestCount (text : String) : Option Nat :=
  let low := (lowerS text).toList
  match searchPos matchCountWord low with
  | some v => some v
  | none =>
    match searchPos matchForN low with
    | some v => some v
    | none =>
      match searchPos matchPartyOf low with
      | some v => some v
      | none => searchPos matchAdults low

/-- Result record of WhatsAppInputParser.extract_dates_and_guests. -/
structure WaExtract where
  check_in : Option String
  check_out : Option String
  guest_count : Option Nat
deriving DecidableEq

/-- WhatsAppInputParser.extract_dates_and_guests from
src/whatsapp_handler.py: two date tokens fill both fields positionally,
a single token is stored as check_in only. -/
def extract_dates_and_guests (text : String) : WaExtract :=
  match scanDates text.toList with
  | d1 :: d2 :: _ => ⟨some d1, some d2, waGuestCount text⟩
  | [d1] => ⟨some d1, none, waGuestCount text⟩
  | [] => ⟨none, none, waGuestCount text⟩

-- ===========================================================================
-- Rooms and room selection
-- ===========================================================================

/-- A room offer as produced by the PMS client. The float price is used
only inside presentation text and is modelled by its rendered string. -/
structure Room where
  id : String
  name : String
  description : String
  price_per_night : String
  max_guests : Nat
  amenities : List String
  available_count : Nat
deriving DecidableEq

/-- WhatsAppInputParser.parse_room_selection from src/whatsapp_handler.py:
1-based ordinal first (falling through when out of range), then
case-insensitive name substring, then any name word longer than 3 chars. -/
def parse_room_selection (text : String) (rooms : List Room) : Option String :=
  let tl := trimS (lowerS text)
  let ordinal : Option String :=
    match toNatL tl.toList with
    | some i =>
      if 1 ≤ i ∧ i ≤ rooms.length then (rooms.get? (i - 1)).map (fun r => r.id)
      else none
    | none => none
  match ordinal with
  | some rid => some rid
  | none =>
    match rooms.find? (fun r => hasSub (lowerS r.name) tl) with
    | some r => some r.id
    | none =>
      match rooms.find? (fun r =>
          (wordsS (lowerS r.name)).any (fun w => w.length > 3 && hasSub w tl)) with
      | some r => some r.id
      | none => none

/-- The three mock rooms of QloAppsClient._mock_check_availability
(src/pms_client.py), price rendered as in the presentation text. -/
def mockRooms : List Room :=
  [⟨"room_101", "Standard Room", "Comfortable room with queen bed, city view",
    "150.0", 2, ["WiFi", "TV", "Air Conditioning", "Coffee Maker"], 5⟩,
   ⟨"room_201", "Deluxe Suite", "Spacious suite with king bed, ocean view, separate living area",
    "250.0", 3, ["WiFi", "TV", "Mini Bar", "Balcony", "Jacuzzi"], 3⟩,
   ⟨"room_301", "Presidential Suite", "Luxurious suite with panoramic views, private terrace",
    "500.0", 4, ["WiFi", "TV", "Mini Bar", "Private Terrace", "Butler Service"], 1⟩]

-- ===========================================================================
-- Booking state (AgentState TypedDict of src/state_graph.py)
-- ===========================================================================

inductive Role
  | user
  | assistant
deriving DecidableEq

/-- One conversation message (HumanMessage / AIMessage content). -/
structure Msg where
  role : Role
  content : String
deriving DecidableEq

def mkUser (c : String) : Msg := ⟨Role.user, c⟩

def mkAI (c : String) : Msg := ⟨Role.assistant, c⟩

/-- AgentState from src/state_graph.py. `ready_to_book` holds the Python
truthiness of the value stored there (the source stores the result of an
`and` chain, which routing only ever tests for truthiness). -/
structure AgentState where
  messages : List Msg
  check_in_date : Option String
  check_out_date : Option String
  guest_count : Option Nat
  available_rooms : Option (List Room)
  selected_room_id : Option String
  selected_room_name : Option String
  guest_name : Option String
  guest_email : Option String
  guest_phone : Option String
  special_requests : Option String
  booking_status : Option String
  confirmation_number : Option String
  current_step : Option String
  needs_dates : Bool
  needs_guest_info : Bool
  ready_to_book : Bool
deriving DecidableEq

/-- Python truthiness of an optional string (None and "" are falsy). -/
def truthy : Option String → Bool
  | none => false
  | some s => !s.toList.isEmpty

/-- Python truthiness of an optional int (None and 0 are falsy). -/
def truthyN : Option Nat → Bool
  | none => false
  | some n => n != 0

/-- SessionManager._create_new_session from src/whatsapp_bot.py (the voice
agent's initial state in src/agent.py is identical). -/
def newSession : AgentState :=
  ⟨[], none, none, none, none, none, none, none, none, none, none, none, none,
   none, true, true, false⟩

/-- Last HumanMessage content, scanning from the end; "" when none exists. -/
def lastHumanMessage (msgs : List Msg) : String :=
  match msgs.reverse.find? (fun m => m.role == Role.user) with
  | some m => m.content
  | none => ""

/-- Python f-string rendering of a possibly-None string field. -/
def pyOptStr : Option String → String
  | none => "None"
  | some s => s

/-- Python f-string rendering of a possibly-None int field. -/
def pyOptNat : Option Nat → String
  | none => "None"
  | some n => toString n

-- ===========================================================================
-- Assistant message templates (the f-strings of the nodes)
-- ===========================================================================

def techDifficultiesText : String :=
  "I apologize, I\x27m experiencing technical difficulties. Could you please repeat that?"

def invalidDatesText (err : String) : String :=
  "I\x27m sorry, but there\x27s an issue with those dates: " ++ err ++
  " Could you please provide different dates?"

def availTroubleText : String :=
  "I\x27m having trouble checking availability right now. Please try again in a moment."

def noRoomsText (guests ci co : String) : String :=
  "I\x27m sorry, we don\x27t have any rooms available for " ++ guests ++
  " guests from " ++ ci ++ " to " ++ co ++ ". Would you like to try different dates?"

def roomOptionLine (i : Nat) (r : Room) : String :=
  toString i ++ ". " ++ r.name ++ " - $" ++ r.price_per_night ++ "/night\n   " ++
  r.description ++ "\n   Amenities: " ++ joinWith ", " r.amenities

/-- HotelAgentGraph._format_room_options. -/
def formatRoomOptions (rooms : List Room) : String :=
  joinWith "\n\n" (rooms.enum.map (fun p => roomOptionLine (p.1 + 1) p.2))

def foundRoomsText (count guests ci co roomsTxt : String) : String :=
  "Great! I found " ++ count ++ " available rooms for " ++ guests ++
  " guests from " ++ ci ++ " to " ++ co ++ ":\n\n" ++ roomsTxt ++
  "\n\nWhich room would you like to book?"

def bookingFailedText : String :=
  "I apologize, but I encountered an error while creating your booking. " ++
  "Please try again or contact our reservations team directly."

def theHotelName : String := "The Grand Hotel"

def confirmationText (conf room ci co guests email : String) : String :=
  "Excellent! Your booking is confirmed.\n\nConfirmation Number: " ++ conf ++
  "\nRoom: " ++ room ++ "\nCheck-in: " ++ ci ++ "\nCheck-out: " ++ co ++
  "\nGuests: " ++ guests ++ "\n\nA confirmation email has been sent to " ++ email ++
  ". We look forward to welcoming you to " ++ theHotelName ++
  "!\n\nIs there anything else I can help you with?"

-- ===========================================================================
-- Graph nodes (HotelAgentGraph of src/state_graph.py)
--
-- LangGraph threads one state through the nodes; each node is embedded as
-- the state transformer the Python function computes, with its message
-- mutations modelled as appends of the messages the node creates. (The
-- `add` reducer on the messages channel re-appends a full returned history
-- for nodes that return `state` unchanged, duplicating earlier entries;
-- that duplication changes no routing decision - they read only the last
-- user or assistant message - and is not modelled.)
-- ===========================================================================

/-- chatbot_node: one chat-completion call; on success append the reply, on
a raised exception append the technical-difficulties apology. `resp` is the
call's result, none for an exception. -/
def chatbot_node (resp : Option String) (s : AgentState) : AgentState :=
  match resp with
  | some text => {s with messages := s.messages ++ [mkAI text]}
  | none => {s with messages := s.messages ++ [mkAI techDifficultiesText]}

/-- extract_info_node: fill dates (when either is missing) and guest count
(when missing) from the last user message, then recompute needs_dates. -/
def extract_info_node (s : AgentState) : AgentState :=
  let lm := lastHumanMessage s.messages
  let s1 :=
    if !truthy s.check_in_date || !truthy s.check_out_date then
      let dates := extract_dates lm
      let sa := match dates.1 with
        | some d => {s with check_in_date := some d}
        | none => s
      match dates.2 with
      | some d => {sa with check_out_date := some d}
      | none => sa
    else s
  let s2 :=
    if truthyN s1.guest_count then s1
    else
      match extract_guest_count lm with
      | some n => if n != 0 then {s1 with guest_count := some n} else s1
      | none => s1
  let hasAll := truthy s2.check_in_date && truthy s2.check_out_date && truthyN s2.guest_count
  {s2 with needs_dates := !hasAll}

/-- validate_dates_node: missing dates short-circuit; otherwise run the
validator, and on failure append the apology, clear both date fields and
tag the step invalid_dates. needs_dates is not touched. -/
def validate_dates_node (today : Nat) (s : AgentState) : AgentState :=
  if !truthy s.check_in_date || !truthy s.check_out_date then
    {s with current_step := some "needs_dates"}
  else
    let v := validate_dates (s.check_in_date.getD "") (s.check_out_date.getD "") today
    if !v.1 then
      {s with messages := s.messages ++ [mkAI (invalidDatesText (v.2.getD ""))],
              check_in_date := none,
              check_out_date := none,
              current_step := some "invalid_dates"}
    else {s with current_step := some "dates_valid"}

/-- check_availability_node: one PMS availability call. `res` is its result
(none for a raised exception, which occurs before any state field is
written). Non-empty results present options; empty results emit the
no-rooms message; exceptions emit the trouble message and tag step error. -/
def check_availability_node (res : Option (List Room)) (s : AgentState) : AgentState :=
  let ci := pyOptStr s.check_in_date
  let co := pyOptStr s.check_out_date
  let guests := pyOptNat s.guest_count
  match res with
  | some rooms =>
    if !rooms.isEmpty then
      {s with available_rooms := some rooms,
              current_step := some "presenting_options",
              messages := s.messages ++
                [mkAI (foundRoomsText (toString rooms.length) guests ci co
                        (formatRoomOptions rooms))]}
    else
      {s with available_rooms := some rooms,
              current_step := some "no_availability",
              messages := s.messages ++ [mkAI (noRoomsText guests ci co)]}
  | none =>
    {s with current_step := some "error",
            messages := s.messages ++ [mkAI availTroubleText]}

/-- One labelled field of the LLM extraction reply, exactly as
collect_guest_info_node parses it: the text between the first occurrence
of the tag and the next occurrence (Python split(tag)[1]) truncated at the
first newline, accepted when it does not contain NONE, stripped. -/
def parseField (content tag : String) : Option String :=
  match splitOnS content tag with
  | _ :: seg :: _ =>
    let firstLine := (splitOnS seg "\n").headD ""
    if hasSub "NONE" firstLine then none
    else
      let v := trimS firstLine
      if v == "NONE" then none else some v
  | _ => none

/-- Field updates of collect_guest_info_node for a given LLM reply. -/
def applyGuestFields (content : String) (s : AgentState) : AgentState :=
  let s1 := match parseField content "Name:" with
    | some v => {s with guest_name := some v}
    | none => s
  let s2 := match parseField content "Email:" with
    | some v => {s1 with guest_email := some v}
    | none => s1
  match parseField content "Phone:" with
  | some v => {s2 with guest_phone := some v}
  | none => s2

/-- collect_guest_info_node: one chat-completion call; on success parse the
three labelled fields and recompute needs_guest_info / ready_to_book from
the truthiness of the three guest fields; a raised exception leaves the
state untouched (the parse happens after the call). -/
def collect_guest_info_node (resp : Option String) (s : AgentState) : AgentState :=
  match resp with
  | none => s
  | some content =>
    let s3 := applyGuestFields content s
    let hasAll := truthy s3.guest_name && truthy s3.guest_email && truthy s3.guest_phone
    {s3 with needs_guest_info := !hasAll, ready_to_book := hasAll}

/-- create_booking_node: one PMS booking-creation call (`res` none models a
raised exception, including rejected guest details). Success records the
confirmation and tags the booking confirmed/completed; failure records
booking_status failed and appends the apology. -/
def create_booking_node (res : Option String) (s : AgentState) : AgentState :=
  match res with
  | some conf =>
    {s with confirmation_number := some conf,
            booking_status := some "confirmed",
            current_step := some "completed",
            messages := s.messages ++
              [mkAI (confirmationText conf (pyOptStr s.selected_room_name)
                      (pyOptStr s.check_in_date) (pyOptStr s.check_out_date)
                      (pyOptNat s.guest_count) (pyOptStr s.guest_email))]}
  | none =>
    {s with booking_status := some "failed",
            messages := s.messages ++ [mkAI bookingFailedText]}

-- ===========================================================================
-- Routing functions of HotelAgentGraph
-- ===========================================================================

/-- route_from_chatbot. The Python function locally mutates the state dict
it is handed when it detects a room selection; the embedding returns the
route string together with that locally mutated state. The function is
registered as a conditional-edge path function, and LangGraph feeds path
functions a snapshot whose in-place mutations are never written back to
the state channels - so only the route string (the first component) has
any effect on the program, and selected_room_id is never persisted by
anything (see nextNode). -/
def route_from_chatbot (s : AgentState) : String × AgentState :=
  if s.current_step == some "completed" then
    match s.messages.getLast? with
    | some m =>
      if m.role == Role.user &&
         (hasSub "new" (lowerS m.content) || hasSub "another" (lowerS m.content)) then
        ("extract_info", s)
      else ("end", s)
    | none => ("end", s)
  else if s.needs_dates then ("extract_info", s)
  else if truthy s.check_in_date && truthy s.check_out_date &&
          !(s.current_step == some "dates_valid") &&
          !(s.current_step == some "presenting_options") then
    ("validate_dates", s)
  else if s.current_step == some "dates_valid" then ("check_availability", s)
  else
    let rooms := s.available_rooms.getD []
    let lm := lowerS (lastHumanMessage s.messages)
    let sel : Option Room :=
      if !rooms.isEmpty && s.current_step == some "presenting_options" then
        rooms.find? (fun r => hasSub (lowerS r.name) lm || hasSub r.id lm)
      else none
    match sel with
    | some r =>
      ("collect_guest_info",
       {s with selected_room_id := some r.id,
               selected_room_name := some r.name,
               current_step := some "room_selected"})
    | none =>
      if truthy s.selected_room_id && s.needs_guest_info then ("collect_guest_info", s)
      else if s.ready_to_book then ("create_booking", s)
      else ("continue", s)

/-- route_from_validation. -/
def route_from_validation (s : AgentState) : String :=
  if s.current_step == some "dates_valid" then "valid" else "invalid"

/-- route_from_guest_info. -/
def route_from_guest_info (s : AgentState) : String :=
  if s.ready_to_book then "create_booking" else "continue"

/-- route_from_booking. -/
def route_from_booking (s : AgentState) : String :=
  if s.booking_status == some "confirmed" then "end" else "continue"

-- ===========================================================================
-- Graph wiring (_build_graph) and turn execution
-- ===========================================================================

inductive Node
  | chatbot
  | extract_info
  | validate_dates
  | check_availability
  | collect_guest_info
  | create_booking
deriving DecidableEq

/-- External-call results consumed by one graph superstep: the chat reply
for chatbot_node, the extraction reply for collect_guest_info_node, the
availability result, the booking confirmation; none models an exception. -/
structure ExtIn where
  chatResp : Option String
  collectResp : Option String
  availResp : Option (List Room)
  bookResp : Option String
deriving DecidableEq

/-- Run one node (the bodies registered by workflow.add_node). -/
def applyNode (today : Nat) (n : Node) (e : ExtIn) (s : AgentState) : AgentState :=
  match n with
  | Node.chatbot => chatbot_node e.chatResp s
  | Node.extract_info => extract_info_node s
  | Node.validate_dates => validate_dates_node today s
  | Node.check_availability => check_availability_node e.availResp s
  | Node.collect_guest_info => collect_guest_info_node e.collectResp s
  | Node.create_booking => create_booking_node e.bookResp s

/-- The successor edge taken after a node, following the conditional-edge
tables of _build_graph; none is END. Only the route label computed by the
path function is consumed: LangGraph gives path functions a snapshot of
the channel values and discards their in-place mutations (state updates
flow only through node return values), so route_from_chatbot's room
selection writes never persist and the state threaded onward is the
node's own output unchanged. -/
def nextNode (n : Node) (s : AgentState) : Option Node :=
  match n with
  | Node.chatbot =>
    let r := (route_from_chatbot s).1
    if r == "extract_info" then some Node.extract_info
    else if r == "validate_dates" then some Node.validate_dates
    else if r == "check_availability" then some Node.check_availability
    else if r == "collect_guest_info" then some Node.collect_guest_info
    else if r == "create_booking" then some Node.create_booking
    else if r == "continue" then some Node.chatbot
    else none
  | Node.extract_info => some Node.chatbot
  | Node.validate_dates =>
    if route_from_validation s == "valid" then some Node.check_availability
    else some Node.chatbot
  | Node.check_availability => some Node.chatbot
  | Node.collect_guest_info =>
    if route_from_guest_info s == "create_booking" then some Node.create_booking
    else some Node.chatbot
  | Node.create_booking =>
    if route_from_booking s == "end" then none else some Node.chatbot

/-- Control position: between turns, or about to run a node of the current
turn (a turn enters at chatbot, the graph entry point). -/
inductive Pos
  | rest
  | at_ (n : Node)
deriving DecidableEq

def posOf : Option Node → Pos
  | some n => Pos.at_ n
  | none => Pos.rest

/-- One graph superstep: run the node, then follow its (conditional) edge.
The state carried to the next superstep is the node's output; the path
function contributes only the route label (its mutations are discarded,
see nextNode). -/
def stepOnce (today : Nat) (e : ExtIn) (n : Node) (s : AgentState) : Pos × AgentState :=
  let s1 := applyNode today n e s
  (posOf (nextNode n s1), s1)

/-- Run supersteps while at a node, consuming one ExtIn per step; stops at
END or when the supplied list (the recursion budget) runs out. -/
def runGraph (today : Nat) : List ExtIn → Pos × AgentState → Pos × AgentState
  | [], ps => ps
  | e :: es, (Pos.at_ n, s) => runGraph today es (stepOnce today e n s)
  | _ :: _, (Pos.rest, s) => (Pos.rest, s)

/-- Per-turn external-call counters: chat-completion calls (chatbot_node
and collect_guest_info_node both call the LLM), availability calls,
booking-creation calls. -/
structure Counts where
  chat : Nat
  avail : Nat
  book : Nat
deriving DecidableEq

/-- External calls one execution of a node performs. -/
def callsOf : Node → Counts
  | Node.chatbot => ⟨1, 0, 0⟩
  | Node.collect_guest_info => ⟨1, 0, 0⟩
  | Node.check_availability => ⟨0, 1, 0⟩
  | Node.create_booking => ⟨0, 0, 1⟩
  | _ => ⟨0, 0, 0⟩

def addCounts (a b : Counts) : Counts := ⟨a.chat + b.chat, a.avail + b.avail, a.book + b.book⟩

def totalCounts (c : Counts) : Nat := c.chat + c.avail + c.book

/-- runGraph instrumented with the external-call counters. -/
def runGraphC (today : Nat) : List ExtIn → Pos × AgentState → Counts → (Pos × AgentState) × Counts
  | [], ps, c => (ps, c)
  | e :: es, (Pos.at_ n, s), c => runGraphC today es (stepOnce today e n s) (addCounts c (callsOf n))
  | _ :: _, (Pos.rest, s), c => ((Pos.rest, s), c)

-- ===========================================================================
-- Channel adapters (src/whatsapp_bot.py process_message, src/agent.py)
-- ===========================================================================

def messageLower (t : String) : String := trimS (lowerS t)

def isResetCmd (t : String) : Bool :=
  messageLower t == "reset" || messageLower t == "restart" ||
  messageLower t == "start over" || messageLower t == "new booking"

def isHelpCmd (t : String) : Bool :=
  messageLower t == "help" || messageLower t == "menu"

def isStatusCmd (t : String) : Bool := messageLower t == "status"

/-- The state handed to the graph by process_message for a non-command
message: guest_phone defaulted to the sender's WhatsApp number when falsy,
then the user message appended. -/
def waPre (s : AgentState) (text phone : String) : AgentState :=
  let s1 := if truthy s.guest_phone then s else {s with guest_phone := some phone}
  {s1 with messages := s1.messages ++ [mkUser text]}

/-- Voice adapter turn entry (src/agent.py _handle_user_input): append the
user utterance; no phone is collected from the transport. -/
def appendUser (s : AgentState) (text : String) : AgentState :=
  {s with messages := s.messages ++ [mkUser text]}

def processErrorText : String :=
  "I apologize, but I encountered an error processing your request. " ++
  "Please try again or type \x27reset\x27 to start over."

/-- What a process_message turn does before (or instead of) running the
graph: an immediate reply for the command branches, or the prepared state
for the state machine. The status branch evaluates self._get_booking_status
at module scope where no `self` is bound, so it raises NameError, which the
enclosing try/except turns into the generic error reply. -/
inductive PmResult
  | reply (r : String)
  | runMachine (s : AgentState)
deriving DecidableEq

def process_message_dispatch (s : AgentState) (text phone : String) : PmResult :=
  if isResetCmd text then PmResult.reply "welcome-reset"
  else if isHelpCmd text then PmResult.reply "help-menu"
  else if isStatusCmd text then PmResult.reply processErrorText
  else PmResult.runMachine (waPre s text phone)

-- ===========================================================================
-- Reachable booking states
-- ===========================================================================

/-- States the controller can be in, at a given control position: the
fresh session (also what the reset command restores), a WhatsApp turn
entry for a non-command message, a voice turn entry, and every graph
superstep from a reached position, for arbitrary external-call results.
`today` is fixed for the relation. -/
inductive Reach (today : Nat) : Pos → AgentState → Prop
  | init : Reach today Pos.rest newSession
  | wstart (s : AgentState) (text phone : String) (h : Reach today Pos.rest s)
      (hr : isResetCmd text = false) (hh : isHelpCmd text = false)
      (hs : isStatusCmd text = false) :
      Reach today (Pos.at_ Node.chatbot) (waPre s text phone)
  | vstart (s : AgentState) (text : String) (h : Reach today Pos.rest s) :
      Reach today (Pos.at_ Node.chatbot) (appendUser s text)
  | step (n : Node) (e : ExtIn) (s : AgentState) (h : Reach today (Pos.at_ n) s) :
      Reach today (stepOnce today e n s).1 (stepOnce today e n s).2

-- ===========================================================================
-- Invariant vocabulary and concrete scenario data
-- ===========================================================================

/-- The part of the spec's readiness invariant that the code maintains: a
truthy ready_to_book implies truthy guest name, email and phone. No room
conjunct: the only write to selected_room_id sits in the conditional-edge
path function, whose mutations LangGraph discards, so the field is never
set (see nextNode). -/
def readyInv (s : AgentState) : Prop :=
  s.ready_to_book = true →
    truthy s.guest_name = true ∧ truthy s.guest_email = true ∧
    truthy s.guest_phone = true

/-- Two states agreeing on the readiness-relevant fields. -/
def sameCore (a b : AgentState) : Prop :=
  a.ready_to_book = b.ready_to_book ∧ a.guest_name = b.guest_name ∧
  a.guest_email = b.guest_email ∧ a.guest_phone = b.guest_phone ∧
  a.selected_room_id = b.selected_room_id

/-- Reference value of datetime.now().date() for concrete scenarios. -/
def todayRef : Nat := rataDie (2026, 10, 12)

/-- A sender's WhatsApp number as the webhook passes it. -/
def refPhone : String := "whatsapp:+15550001111"

/-- A room offer returned by the availability oracle in scenarios. -/
def deluxeRoom : Room := ⟨"room_201", "Deluxe Suite", "", "250.0", 3, [], 3⟩

def c1text : String := "2099-01-01 2099-01-05 for 2 Deluxe Suite"

/-- External results for the C1 scenario: the extraction LLM supplies a
name and an email; the phone stays the adapter-filled sender number. -/
def c1ext : ExtIn :=
  ⟨some "Certainly.", some "Name: Jane Doe\nEmail: jane@x.com\nPhone: NONE",
   some [deluxeRoom], none⟩

/-- Seven supersteps of the C1 turn: chatbot, extract, chatbot, validate,
availability, chatbot (the room-match branch routes to guest-info
collection but its selected_room_id write is discarded), guest-info
collection (which sets ready_to_book true). -/
def c1run : Pos × AgentState :=
  runGraph todayRef (List.replicate 7 c1ext) (Pos.at_ Node.chatbot, waPre newSession c1text refPhone)

/-- A state holding an invalid past date pair, as extraction leaves it. -/
def c3wstate : AgentState :=
  {newSession with check_in_date := some "2020-01-01",
                   check_out_date := some "2020-01-05",
                   guest_count := some 2, needs_dates := false}

/-- A state presenting the three mock offers whose latest user message is
the bare ordinal 2. -/
def c5state : AgentState :=
  {newSession with
    messages := [mkUser "2"],
    check_in_date := some "2026-11-01", check_out_date := some "2026-11-05",
    guest_count := some 2,
    available_rooms := some mockRooms,
    current_step := some "presenting_options",
    needs_dates := false}

def c6ext : ExtIn := ⟨some "How can I help?", none, none, none⟩

/-- Three supersteps of an ordinary date-collection turn, with counters. -/
def c6run : (Pos × AgentState) × Counts :=
  runGraphC 0 (List.replicate 3 c6ext)
    (Pos.at_ Node.chatbot, appendUser newSession "hello there") ⟨0, 0, 0⟩

/-- The state in which the availability node runs: dates just validated. -/
def c7state : AgentState :=
  {newSession with
    check_in_date := some "2026-11-01", check_out_date := some "2026-11-05",
    guest_count := some 2, needs_dates := false,
    current_step := some "dates_valid"}

-- ===========================================================================
-- Helper lemmas
-- ===========================================================================

theorem sameCore_readyInv {a b : AgentState} (h : sameCore a b) (hb : readyInv b) : readyInv a := by
  obtain ⟨h1, h2, h3, h4, h5⟩ := h
  intro hr
  rw [h1] at hr
  obtain ⟨g1, g2, g3⟩ := hb hr
  rw [h2, h3, h4]
  exact ⟨g1, g2, g3⟩

theorem chatbot_core (r : Option String) (s : AgentState) : sameCore (chatbot_node r s) s := by
  cases r <;> exact ⟨rfl, rfl, rfl, rfl, rfl⟩

theorem extract_core (s : AgentState) : sameCore (extract_info_node s) s := by
  simp only [extract_info_node]
  repeat' split
  all_goals exact ⟨rfl, rfl, rfl, rfl, rfl⟩

theorem validate_core (t : Nat) (s : AgentState) : sameCore (validate_dates_node t s) s := by
  simp only [validate_dates_node]
  repeat' split
  all_goals exact ⟨rfl, rfl, rfl, rfl, rfl⟩

theorem avail_core (r : Option (List Room)) (s : AgentState) :
    sameCore (check_availability_node r s) s := by
  simp only [check_availability_node]
  repeat' split
  all_goals exact ⟨rfl, rfl, rfl, rfl, rfl⟩

theorem booking_core (r : Option String) (s : AgentState) :
    sameCore (create_booking_node r s) s := by
  cases r <;> exact ⟨rfl, rfl, rfl, rfl, rfl⟩

theorem guestFields_room (c : String) (s : AgentState) :
    (applyGuestFields c s).selected_room_id = s.selected_room_id := by
  simp only [applyGuestFields]
  repeat' split
  all_goals rfl

theorem waPre_readyInv (s : AgentState) (text phone : String) (h : readyInv s) :
    readyInv (waPre s text phone) := by
  unfold waPre
  split
  · intro hr
    exact h hr
  · intro hr
    obtain ⟨g1, g2, g3⟩ := h hr
    rename_i hp
    exact absurd g3 hp

theorem appendUser_readyInv (s : AgentState) (text : String) (h : readyInv s) :
    readyInv (appendUser s text) := by
  intro hr
  exact h hr

theorem reach_ready_inv (today : Nat) (p : Pos) (s : AgentState) (h : Reach today p s) :
    readyInv s ∧ s.selected_room_id = none := by
  induction h with
  | init =>
    refine ⟨?_, rfl⟩
    intro hr
    simp [newSession] at hr
  | wstart s text phone h hr hh hs ih =>
    refine ⟨waPre_readyInv s text phone ih.1, ?_⟩
    unfold waPre
    split
    · exact ih.2
    · exact ih.2
  | vstart s text h ih =>
    exact ⟨appendUser_readyInv s text ih.1, ih.2⟩
  | step n e s h ih =>
    cases n with
    | chatbot =>
      exact ⟨sameCore_readyInv (chatbot_core e.chatResp s) ih.1,
             ((chatbot_core e.chatResp s).2.2.2.2).trans ih.2⟩
    | extract_info =>
      exact ⟨sameCore_readyInv (extract_core s) ih.1,
             ((extract_core s).2.2.2.2).trans ih.2⟩
    | validate_dates =>
      exact ⟨sameCore_readyInv (validate_core today s) ih.1,
             ((validate_core today s).2.2.2.2).trans ih.2⟩
    | check_availability =>
      exact ⟨sameCore_readyInv (avail_core e.availResp s) ih.1,
             ((avail_core e.availResp s).2.2.2.2).trans ih.2⟩
    | collect_guest_info =>
      obtain ⟨ec, eco, eav, ebk⟩ := e
      simp only [stepOnce, applyNode]
      cases eco with
      | none => exact ⟨ih.1, ih.2⟩
      | some content =>
        refine ⟨?_, ?_⟩
        · intro hr
          simp only [collect_guest_info_node] at hr ⊢
          rw [Bool.and_eq_true, Bool.and_eq_true] at hr
          obtain ⟨⟨g1, g2⟩, g3⟩ := hr
          exact ⟨g1, g2, g3⟩
        · exact (guestFields_room content s).trans ih.2
    | create_booking =>
      exact ⟨sameCore_readyInv (booking_core e.bookResp s) ih.1,
             ((booking_core e.bookResp s).2.2.2.2).trans ih.2⟩

theorem reach_run (today : Nat) (es : List ExtIn) :
    ∀ p s, Reach today p s →
      Reach today (runGraph today es (p, s)).1 (runGraph today es (p, s)).2 := by
  induction es with
  | nil => intro p s h; exact h
  | cons e es ih =>
    intro p s h
    cases p with
    | rest => exact h
    | at_ n => exact ih _ _ (Reach.step n e s h)

theorem parse_truthy {str : String} {d : Nat × Nat × Nat} (h : parseDate str = some d) :
    truthy (some str) = true := by
  cases str with
  | mk l =>
    cases l with
    | nil =>
      rw [show parseDate (String.mk []) = none from rfl] at h
      exact absurd h (by simp)
    | cons c cs => rfl

theorem clears_stay (today : Nat) (s : AgentState)
    (h1 : s.check_in_date = none) (h2 : s.check_out_date = none) :
    (validate_dates_node today s).check_in_date = none ∧
    (validate_dates_node today s).check_out_date = none := by
  simp [validate_dates_node, h1, h2, truthy]

-- ===========================================================================
-- Claim theorems
-- ===========================================================================

/-- C1 counterexample: a reachable booking state in which ready_to_book
is true while selected_room_id is null, refuting both the claimed
biconditional and its "no operation ever sets ready_to_book to true while
selected_room_id is null" part. The user text names the Deluxe Suite and
route_from_chatbot routes to guest-info collection, but that routing
happens in a conditional-edge path function whose in-place
selected_room_id write LangGraph discards, so collect_guest_info_node
runs with selected_room_id null and sets ready_to_book from the
adapter-filled phone plus the LLM-extracted name and email. -/
theorem C1_cex :
    Reach todayRef c1run.1 c1run.2 ∧
    (c1run.2.ready_to_book = true ∧ c1run.2.selected_room_id = none ∧
     c1run.2.guest_name = some "Jane Doe" ∧ c1run.2.guest_email = some "jane@x.com" ∧
     c1run.2.guest_phone = some refPhone) :=
  ⟨reach_run todayRef (List.replicate 7 c1ext) (Pos.at_ Node.chatbot)
     (waPre newSession c1text refPhone)
     (Reach.wstart newSession c1text refPhone Reach.init (by decide) (by decide) (by decide)),
   by decide⟩

/-- C1 (amended): for every reachable booking state, if ready_to_book is
true then guest_name, guest_email and guest_phone are non-null and
non-empty; and selected_room_id is null in every reachable state, because
its only write sits in the conditional-edge path function whose in-place
mutations LangGraph discards. Neither the claimed biconditional nor its
room conjunct holds: ready_to_book can be true with selected_room_id
null. -/
theorem C1_ready_invariant (today : Nat) (p : Pos) (s : AgentState) (h : Reach today p s) :
    (s.ready_to_book = true →
      truthy s.guest_name = true ∧ truthy s.guest_email = true ∧
      truthy s.guest_phone = true) ∧
    s.selected_room_id = none :=
  reach_ready_inv today p s h

/-- C1 witness: the invariant instantiated at the reachable fresh session. -/
theorem C1_ready_invariant_witness :
    Reach 0 Pos.rest newSession ∧
    ((newSession.ready_to_book = true →
       truthy newSession.guest_name = true ∧ truthy newSession.guest_email = true ∧
       truthy newSession.guest_phone = true) ∧
     newSession.selected_room_id = none) :=
  ⟨Reach.init, C1_ready_invariant 0 Pos.rest newSession Reach.init⟩

/-- C3 counterexample: the claim says validation always fails when
checkIn <= today, but for checkIn equal to today (and checkOut the next
day) validate_dates succeeds - the code only rejects checkIn < today. -/
theorem C3_cex :
    validate_dates "2026-10-12" "2026-10-13" (rataDie (2026, 10, 12)) = (true, none) := by
  decide

/-- C3 (amended): for every parseable date pair with checkIn strictly
before today or checkOut not after checkIn, validate_dates fails, and
validate_dates_node clears both date fields on any state carrying that
pair, and they stay cleared under any number of further invocations. -/
theorem C3_amended (ci co : String) (today : Nat) (d1 d2 : Nat × Nat × Nat)
    (h1 : parseDate ci = some d1) (h2 : parseDate co = some d2)
    (hbad : rataDie d1 < today ∨ rataDie d2 ≤ rataDie d1) :
    (validate_dates ci co today).1 = false ∧
    ∀ s : AgentState, s.check_in_date = some ci → s.check_out_date = some co →
      ∀ k : Nat, ((validate_dates_node today)^[k + 1] s).check_in_date = none ∧
                 ((validate_dates_node today)^[k + 1] s).check_out_date = none := by
  have hfail : (validate_dates ci co today).1 = false := by
    unfold validate_dates
    rw [h1, h2]
    rcases hbad with hb | hb
    · simp only [if_pos hb]
    · by_cases hlt : rataDie d1 < today
      · simp only [if_pos hlt]
      · simp only [if_neg hlt, if_pos hb]
  refine ⟨hfail, ?_⟩
  intro s hci hco k
  have t1 : truthy (some ci) = true := parse_truthy h1
  have t2 : truthy (some co) = true := parse_truthy h2
  have hbase : (validate_dates_node today s).check_in_date = none ∧
      (validate_dates_node today s).check_out_date = none := by
    simp [validate_dates_node, hci, hco, t1, t2, hfail]
  induction k with
  | zero => simpa using hbase
  | succ k ihk =>
    rw [Function.iterate_succ_apply']
    exact clears_stay today _ ihk.1 ihk.2

/-- C3 witness: the amended statement at the past pair 2020-01-01 to
2020-01-05 with today 2026-10-12 and two node invocations. -/
theorem C3_amended_witness :
    parseDate "2020-01-01" = some (2020, 1, 1) ∧
    parseDate "2020-01-05" = some (2020, 1, 5) ∧
    rataDie (2020, 1, 1) < rataDie (2026, 10, 12) ∧
    (validate_dates "2020-01-01" "2020-01-05" (rataDie (2026, 10, 12))).1 = false ∧
    ((validate_dates_node (rataDie (2026, 10, 12)))^[2] c3wstate).check_in_date = none ∧
    ((validate_dates_node (rataDie (2026, 10, 12)))^[2] c3wstate).check_out_date = none :=
  ⟨by decide, by decide, by decide,
   (C3_amended "2020-01-01" "2020-01-05" (rataDie (2026, 10, 12)) (2020, 1, 1) (2020, 1, 5)
     (by decide) (by decide) (Or.inl (by decide))).1,
   ((C3_amended "2020-01-01" "2020-01-05" (rataDie (2026, 10, 12)) (2020, 1, 1) (2020, 1, 5)
     (by decide) (by decide) (Or.inl (by decide))).2 c3wstate rfl rfl 1).1,
   ((C3_amended "2020-01-01" "2020-01-05" (rataDie (2026, 10, 12)) (2020, 1, 1) (2020, 1, 5)
     (by decide) (by decide) (Or.inl (by decide))).2 c3wstate rfl rfl 1).2⟩

/-- C4 counterexample: an utterance with exactly one YYYY-MM-DD token; the
controller's DateExtractor.extract_dates discards it (it fills fields only
when at least two tokens appear), contradicting the claim that a single
token fills the first unset field. -/
theorem C4_cex :
    extract_dates "I arrive 2026-11-01" = (none, none) ∧
    scanDates ("I arrive 2026-11-01".toList) = ["2026-11-01"] :=
  ⟨by decide, by decide⟩

/-- C4 (amended): for every utterance with exactly one YYYY-MM-DD token,
the controller's extraction fills neither date field (the single token is
discarded), while the WhatsApp parser extract_dates_and_guests - which
nothing in the repository calls - unconditionally records the token as
check_in, leaving check_out unset. -/
theorem C4_amended (text d : String) (h : scanDates text.toList = [d]) :
    extract_dates text = (none, none) ∧
    (extract_dates_and_guests text).check_in = some d ∧
    (extract_dates_and_guests text).check_out = none := by
  unfold extract_dates extract_dates_and_guests
  rw [h]
  exact ⟨rfl, rfl, rfl⟩

/-- C4 witness: the amended statement at the one-token utterance
2026-11-01. -/
theorem C4_amended_witness :
    scanDates ("2026-11-01".toList) = ["2026-11-01"] ∧
    extract_dates "2026-11-01" = (none, none) ∧
    (extract_dates_and_guests "2026-11-01").check_in = some "2026-11-01" ∧
    (extract_dates_and_guests "2026-11-01").check_out = none :=
  ⟨by decide,
   (C4_amended "2026-11-01" "2026-11-01" (by decide)).1,
   (C4_amended "2026-11-01" "2026-11-01" (by decide)).2.1,
   (C4_amended "2026-11-01" "2026-11-01" (by decide)).2.2⟩

/-- C5 counterexample: with the three mock offers presented and user text
"2", the room matching the controller actually applies (the inline
name/id substring loop of route_from_chatbot) selects no room and routes
to continue, even though parse_room_selection would return the second
offer's id - so the claimed behavior does not hold for the matching the
controller applies. -/
theorem C5_cex :
    (route_from_chatbot c5state).1 = "continue" ∧
    (route_from_chatbot c5state).2.selected_room_id = none ∧
    parse_room_selection "2" mockRooms = some "room_201" := by
  decide

/-- C5 (amended): parse_room_selection does give 1-based ordinal selection
precedence - "2" returns the second offer's id for every offer triple -
but parse_room_selection has no caller; the controller's own substring
matching selects nothing for the text "2" on the mock offers. -/
theorem C5_amended :
    (∀ a b c : Room, parse_room_selection "2" [a, b, c] = some b.id) ∧
    (route_from_chatbot c5state).1 = "continue" ∧
    (route_from_chatbot c5state).2.selected_room_id = none :=
  ⟨fun a b c => rfl, by decide, by decide⟩

/-- C6 counterexample: a single turn (one graph invocation on the fresh
session plus the message "hello there") reaches two chat-completion calls
after only three supersteps - chatbot runs, extraction runs, chatbot runs
again - and the turn is still in progress, refuting the
at-most-one-chat-call-per-turn claim. -/
theorem C6_cex :
    c6run.2.chat = 2 ∧ c6run.2.avail = 0 ∧ c6run.2.book = 0 ∧
    c6run.1.1 = Pos.at_ Node.extract_info :=
  by decide

/-- C6 (amended): each graph superstep performs at most one external call,
so within a turn the total number of chat, availability and booking calls
is bounded by the superstep budget, not by one per backend. -/
theorem C6_amended (today : Nat) (es : List ExtIn) (p : Pos) (s : AgentState) (c : Counts) :
    totalCounts (runGraphC today es (p, s) c).2 ≤ totalCounts c + es.length := by
  induction es generalizing p s c with
  | nil => simp [runGraphC]
  | cons e es ih =>
    cases p with
    | rest =>
      simp only [runGraphC]
      exact Nat.le_add_right _ _
    | at_ n =>
      simp only [runGraphC]
      have hstep : totalCounts (addCounts c (callsOf n)) ≤ totalCounts c + 1 := by
        cases n <;> simp [addCounts, callsOf, totalCounts] <;> omega
      calc totalCounts (runGraphC today es (stepOnce today e n s) (addCounts c (callsOf n))).2
          ≤ totalCounts (addCounts c (callsOf n)) + es.length := by
            have h2 := ih (stepOnce today e n s).1 (stepOnce today e n s).2 (addCounts c (callsOf n))
            simpa using h2
        _ ≤ totalCounts c + 1 + es.length := Nat.add_le_add_right hstep _
        _ = totalCounts c + (es.length + 1) := by omega
        _ = totalCounts c + (e :: es).length := by simp

/-- C7 counterexample: when the availability call raises, the node changes
the routing field current_step (from dates_valid to error), so not all
fields other than the appended message keep their prior values. -/
theorem C7_cex :
    (check_availability_node none c7state).current_step ≠ c7state.current_step := by
  decide

/-- C7 (amended): on an availability exception the node appends the
generic trouble-checking-availability apology and sets current_step to
error; the dates, guest count, available rooms, selected room and the
boolean routing flags keep their prior values, so the same dates can be
retried. -/
theorem C7_amended (s : AgentState) :
    (check_availability_node none s).check_in_date = s.check_in_date ∧
    (check_availability_node none s).check_out_date = s.check_out_date ∧
    (check_availability_node none s).guest_count = s.guest_count ∧
    (check_availability_node none s).available_rooms = s.available_rooms ∧
    (check_availability_node none s).selected_room_id = s.selected_room_id ∧
    (check_availability_node none s).needs_dates = s.needs_dates ∧
    (check_availability_node none s).needs_guest_info = s.needs_guest_info ∧
    (check_availability_node none s).ready_to_book = s.ready_to_book ∧
    (check_availability_node none s).current_step = some "error" ∧
    (check_availability_node none s).messages = s.messages ++ [mkAI availTroubleText] :=
  ⟨rfl, rfl, rfl, rfl, rfl, rfl, rfl, rfl, rfl, rfl⟩

/-- C8: when the availability call returns the empty sequence, the node
records available_rooms as the empty list (not null), appends the
no-rooms-available message that invites different dates, and leaves
check_in_date and check_out_date untouched. -/
theorem C8_no_availability (s : AgentState) :
    (check_availability_node (some []) s).available_rooms = some [] ∧
    (check_availability_node (some []) s).check_in_date = s.check_in_date ∧
    (check_availability_node (some []) s).check_out_date = s.check_out_date ∧
    (check_availability_node (some []) s).guest_count = s.guest_count ∧
    (check_availability_node (some []) s).current_step = some "no_availability" ∧
    (check_availability_node (some []) s).messages =
      s.messages ++ [mkAI (noRoomsText (pyOptNat s.guest_count)
        (pyOptStr s.check_in_date) (pyOptStr s.check_out_date))] :=
  ⟨rfl, rfl, rfl, rfl, rfl, rfl⟩

/-- C9: for every stored session whose guest_phone is unset and every
message that is not a reset, help or status command, process_message hands
the state machine a state whose guest_phone is the sender's WhatsApp
number, so the phone requirement can be met without the user typing a
phone number. -/
theorem C9_phone_autofill (s : AgentState) (text phone : String)
    (h1 : isResetCmd text = false) (h2 : isHelpCmd text = false)
    (h3 : isStatusCmd text = false) (h4 : truthy s.guest_phone = false) :
    process_message_dispatch s text phone = PmResult.runMachine (waPre s text phone) ∧
    (waPre s text phone).guest_phone = some phone := by
  constructor
  · simp [process_message_dispatch, h1, h2, h3]
  · simp [waPre, h4]

/-- C9 witness: the autofill at the fresh session and the message hello. -/
theorem C9_phone_autofill_witness :
    isResetCmd "hello" = false ∧ isHelpCmd "hello" = false ∧
    isStatusCmd "hello" = false ∧ truthy newSession.guest_phone = false ∧
    (process_message_dispatch newSession "hello" "whatsapp:+15551234567" =
       PmResult.runMachine (waPre newSession "hello" "whatsapp:+15551234567") ∧
     (waPre newSession "hello" "whatsapp:+15551234567").guest_phone =
       some "whatsapp:+15551234567") :=
  ⟨by decide, by decide, by decide, by decide,
   C9_phone_autofill newSession "hello" "whatsapp:+15551234567"
     (by decide) (by decide) (by decide) (by decide)⟩

/-- C10: for every session state and sender, the literal message status
makes process_message reply with the generic error-processing text instead
of a booking-status summary - the status branch evaluates
self._get_booking_status where no self is bound, raising NameError, which
the enclosing handler converts to the generic reply. -/
theorem C10_status_generic_error (s : AgentState) (phone : String) :
    process_message_dispatch s "status" phone = PmResult.reply processErrorText := by
  unfold process_message_dispatch
  rw [show isResetCmd "status" = false from by decide,
      show isHelpCmd "status" = false from by decide,
      show isStatusCmd "status" = true from by decide]
  simp
